import Mathlib

/-!
Verification development for the Finance ML service (src/ml-service/main.py).

The service's engines are embedded shallowly:
* monetary amounts and all derived statistics are rationals (`ℚ`); the source
  computes with IEEE doubles, but every claim checked here concerns order /
  control-flow structure that is unaffected by rounding,
* calendar dates are integers counting days (only differences and the weekday
  residue of a date are ever used by the source),
* a pandas statistic that is `NaN` (standard deviation or quantile of a too
  short series) is embedded as `Option ℚ` with `none` for `NaN`; the source's
  comparisons `NaN > x` are `false`, which the embedding mirrors,
* the square root inside a z-score comparison `|a - m| / std > c` is removed
  by squaring both sides (`(a - m)^2 > c^2 * var`), an exact equivalence for
  `std > 0`,
* the fitted scikit-learn models (KMeans labels, IsolationForest labels and
  scores) are opaque external computations; the endpoints are embedded as
  functions of the transaction list plus those model outputs, so that every
  statement about the service's own post-processing is proved for all
  possible model outputs.
-/

namespace FinML

/-- A transaction record (class `Transaction` in the source). -/
structure Tx where
  date : ℤ
  amount : ℚ
  type : String
  category : String
  merchantName : String
deriving DecidableEq

/-- Shorthand used to build concrete transactions in witnesses. -/
def mkTx (d : ℤ) (a : ℚ) (ty cat : String) : Tx :=
  ⟨d, a, ty, cat, "m"⟩

/-- Arithmetic mean of a list (pandas `.mean()`, callers guarantee nonempty). -/
def mean (l : List ℚ) : ℚ := l.sum / (l.length : ℚ)

/-- Sample variance with `ddof = 1`, the square of pandas `.std()`.
pandas returns `NaN` for fewer than two values, embedded as `none`. -/
def svar (l : List ℚ) : Option ℚ :=
  if l.length ≤ 1 then none
  else some (((l.map (fun x => (x - mean l) ^ 2)).sum) / ((l.length : ℚ) - 1))

/-- pandas `Series.quantile(0.95)` with the default linear interpolation;
`NaN` (empty series) is `none`. -/
def quantile95 (l : List ℚ) : Option ℚ :=
  if l.length = 0 then none
  else
    let s := List.insertionSort (fun a b : ℚ => a ≤ b) l
    let h : ℚ := (19 / 20) * ((l.length : ℚ) - 1)
    let j : ℕ := (Int.floor h).toNat
    let g : ℚ := h - (j : ℚ)
    some (s.getD j 0 + g * (s.getD (j + 1) (s.getD j 0) - s.getD j 0))

/-- The expense-type transactions of a list. -/
def expenseTxs (txs : List Tx) : List Tx :=
  txs.filter (fun t => decide (t.type = "Expense"))

/-! ## Single-transaction scoring (`/score-transaction`, lines 415-504)

The scorer is a closed-form heuristic over the historical list; the
`reason` strings of the response are not modelled (no claim concerns them).
-/

/-- Amounts of the historical transactions in the candidate's category
(`cat_txs['amount']` in the source). -/
def catAmounts (hist : List Tx) (c : String) : List ℚ :=
  (hist.filter (fun t => decide (t.category = c))).map Tx.amount

/-- Category-history contribution to the heuristic score (lines 449-468).
The source compares `z_score = abs((amount - cat_mean) / cat_std)` against
3 and 2; with `cat_std = sqrt v > 0` this is compared here in squared form
(`z > 3 ↔ (a - mean)^2 > 9·v`), an exact equivalence.  A `NaN` standard
deviation (single same-category transaction) fails the `cat_std > 0` test
exactly like the source, falling into the `amount > cat_mean * 2` branch. -/
def categoryScore (hist : List Tx) (c : String) (a : ℚ) : ℚ :=
  if (catAmounts hist c).length = 0 then 0.2
  else
    match svar (catAmounts hist c) with
    | some v =>
      if 0 < v then
        (if 9 * v < (a - mean (catAmounts hist c)) ^ 2 then 0.6
         else if 4 * v < (a - mean (catAmounts hist c)) ^ 2 then 0.3
         else 0)
      else (if mean (catAmounts hist c) * 2 < a then 0.4 else 0)
    | none => (if mean (catAmounts hist c) * 2 < a then 0.4 else 0)

/-- Amounts of all expense-type historical transactions. -/
def expenseAmounts (hist : List Tx) : List ℚ :=
  (expenseTxs hist).map Tx.amount

/-- Whole-history contribution: comparison of the candidate amount against
the 95th percentile of expense amounts (lines 471-479).  A `NaN` quantile
(no expense history) makes both comparisons false. -/
def overallScore (hist : List Tx) (a : ℚ) : ℚ :=
  match quantile95 (expenseAmounts hist) with
  | none => 0
  | some q => if q * 1.5 < a then 0.3 else if q < a then 0.15 else 0

/-- Risk level thresholds (lines 485-490). -/
def riskLevel (s : ℚ) : String :=
  if 0.6 ≤ s then "high" else if 0.3 ≤ s then "medium" else "low"

/-- The fields of `TransactionScoringResponse` the claims concern. -/
structure ScoreResp where
  anomaly_score : ℚ
  is_anomaly : Bool
  risk_level : String
deriving DecidableEq

/-- The raw heuristic score capped at 1 (line 482). -/
def cappedScore (hist : List Tx) (t : Tx) : ℚ :=
  min 1 (categoryScore hist t.category t.amount + overallScore hist t.amount)

/-- The `/score-transaction` endpoint body (lines 424-500).  An empty
historical list takes the early `low` return of lines 424-431. -/
def scoreTransaction (hist : List Tx) (t : Tx) : ScoreResp :=
  match hist with
  | [] => ⟨0, false, "low"⟩
  | _ :: _ =>
    ⟨cappedScore hist t, decide ((0.5 : ℚ) < cappedScore hist t), riskLevel (cappedScore hist t)⟩

/-- Category variance with `NaN ↦ 0`; positive exactly when the source's
`cat_std > 0` branch is taken. -/
def catVarD (hist : List Tx) (c : String) : ℚ :=
  (svar (catAmounts hist c)).getD 0

/-- Category mean of the historical amounts. -/
def catMeanD (hist : List Tx) (c : String) : ℚ :=
  mean (catAmounts hist c)

/-- A fixed three-transaction Food expense history (amounts 90, 100, 110)
used as concrete input: category mean 100, sample variance 100,
95th percentile of expense amounts 109. -/
def histW : List Tx :=
  [mkTx 0 90 "Expense" "Food", mkTx 1 100 "Expense" "Food", mkTx 2 110 "Expense" "Food"]

theorem overall_step_mono {q a1 a2 : ℚ} (h : a1 ≤ a2) :
    (if q * 1.5 < a1 then (0.3 : ℚ) else if q < a1 then 0.15 else 0)
      ≤ (if q * 1.5 < a2 then (0.3 : ℚ) else if q < a2 then 0.15 else 0) := by
  split_ifs <;> linarith

theorem overallScore_mono (hist : List Tx) {a1 a2 : ℚ} (h : a1 ≤ a2) :
    overallScore hist a1 ≤ overallScore hist a2 := by
  unfold overallScore
  cases hq : quantile95 (expenseAmounts hist) with
  | none => exact le_refl 0
  | some q => exact overall_step_mono h

theorem elif_step_mono {m a1 a2 : ℚ} (h : a1 ≤ a2) :
    (if m * 2 < a1 then (0.4 : ℚ) else 0) ≤ (if m * 2 < a2 then (0.4 : ℚ) else 0) := by
  split_ifs <;> linarith

theorem categoryScore_mono (hist : List Tx) (c : String) {a1 a2 : ℚ} (h12 : a1 ≤ a2)
    (hm : 0 < catVarD hist c → catMeanD hist c ≤ a1) :
    categoryScore hist c a1 ≤ categoryScore hist c a2 := by
  by_cases hlen : (catAmounts hist c).length = 0
  · simp [categoryScore, hlen]
  · cases hv : svar (catAmounts hist c) with
    | none => simpa [categoryScore, hlen, hv] using elif_step_mono h12
    | some v =>
      by_cases hv0 : 0 < v
      · have hmean : catMeanD hist c ≤ a1 := hm (by rw [catVarD, hv]; exact hv0)
        have hsq : (a1 - mean (catAmounts hist c)) ^ 2 ≤ (a2 - mean (catAmounts hist c)) ^ 2 := by
          have h1 : 0 ≤ a1 - mean (catAmounts hist c) := by
            have := hmean; rw [catMeanD] at this; linarith
          exact pow_le_pow_left₀ h1 (by linarith) 2
        simp only [categoryScore, hlen, if_false, hv, if_pos hv0]
        split_ifs <;> linarith
      · simpa [categoryScore, hlen, hv, hv0] using elif_step_mono h12

/-- **C2 (counterexample).**  Single-transaction scoring is *not* monotonic in
the candidate amount: over the history `histW` (Food expenses 90, 100, 110)
a Food transaction of amount 60 scores 0.6 (its z-score exceeds 3) while the
strictly larger amount 100 scores 0, because the source uses the absolute
z-score `abs((amount - cat_mean) / cat_std)` and 60 is far *below* the mean. -/
theorem score_monotone_cex :
    (mkTx 3 60 "Expense" "Food").amount < (mkTx 3 100 "Expense" "Food").amount
    ∧ (scoreTransaction histW (mkTx 3 100 "Expense" "Food")).anomaly_score
        < (scoreTransaction histW (mkTx 3 60 "Expense" "Food")).anomaly_score := by
  constructor
  · norm_num [mkTx]
  · norm_num [scoreTransaction, cappedScore, categoryScore, overallScore, quantile95,
      expenseAmounts, expenseTxs, svar, catAmounts, histW, mkTx, mean,
      List.insertionSort, List.orderedInsert]

/-- **C2 (amended).**  Monotonicity holds once the smaller candidate amount is
at least the category's historical mean whenever that category history has
positive (sample) variance: for a fixed history and two candidates of the
same category with `t1.amount ≤ t2.amount`, the anomaly score of `t2` is at
least that of `t1`.  (The restriction is forced by the absolute z-score:
below-mean amounts can score higher, see the counterexample.) -/
theorem score_monotone_above_mean (hist : List Tx) (t1 t2 : Tx)
    (hcat : t1.category = t2.category)
    (hle : t1.amount ≤ t2.amount)
    (hm : 0 < catVarD hist t1.category → catMeanD hist t1.category ≤ t1.amount) :
    (scoreTransaction hist t1).anomaly_score ≤ (scoreTransaction hist t2).anomaly_score := by
  cases hist with
  | nil => simp [scoreTransaction]
  | cons h0 hs =>
    simp only [scoreTransaction, cappedScore]
    refine min_le_min le_rfl (add_le_add ?_ ?_)
    · rw [← hcat]; exact categoryScore_mono _ _ hle hm
    · exact overallScore_mono _ hle

/-- Witness for `score_monotone_above_mean` at the concrete history `histW`
and candidate amounts 100 and 120 (both at least the category mean 100). -/
theorem score_monotone_above_mean_witness :
    (scoreTransaction histW (mkTx 3 100 "Expense" "Food")).anomaly_score
      ≤ (scoreTransaction histW (mkTx 3 120 "Expense" "Food")).anomaly_score := by
  refine score_monotone_above_mean histW _ _ rfl (by norm_num [mkTx]) ?_
  intro hv
  norm_num [catMeanD, catAmounts, histW, mkTx, mean]

/-- **C10.**  If a scoring response sets `is_anomaly` (score strictly above
0.5), its risk level is `"medium"` or `"high"`, never `"low"`: the 0.3
threshold for `"medium"` lies below the 0.5 anomaly threshold. -/
theorem is_anomaly_risk_not_low (hist : List Tx) (t : Tx)
    (h : (scoreTransaction hist t).is_anomaly = true) :
    (scoreTransaction hist t).risk_level = "medium"
      ∨ (scoreTransaction hist t).risk_level = "high" := by
  cases hist with
  | nil => simp [scoreTransaction] at h
  | cons h0 hs =>
    simp only [scoreTransaction, decide_eq_true_eq] at h ⊢
    unfold riskLevel
    split_ifs with h6 h3
    · right; rfl
    · left; rfl
    · exact absurd (by linarith : (0.3 : ℚ) ≤ cappedScore (h0 :: hs) t) h3

/-- Witness for `is_anomaly_risk_not_low`: a 10000 Food transaction against
`histW` scores 0.9 (z-score rule 0.6 plus top-percentile rule 0.3). -/
theorem is_anomaly_risk_not_low_witness :
    (scoreTransaction histW (mkTx 3 10000 "Expense" "Food")).risk_level = "medium"
      ∨ (scoreTransaction histW (mkTx 3 10000 "Expense" "Food")).risk_level = "high" := by
  refine is_anomaly_risk_not_low histW _ ?_
  norm_num [scoreTransaction, cappedScore, categoryScore, overallScore, quantile95,
    expenseAmounts, expenseTxs, svar, catAmounts, histW, mkTx, mean,
    List.insertionSort, List.orderedInsert]

/-! ## Cluster-count clamping (`/cluster`, lines 161-162)

The source clamps the requested cluster count only when
`features_df.shape[0] < request.n_clusters`; the feature table has one row
per transaction, so `shape[0]` is the transaction count. -/

/-- The cluster count actually handed to KMeans, as a function of the row
count and the requested `n_clusters` (lines 161-162). -/
def effClusters (rowCount k : ℤ) : ℤ :=
  if rowCount < k then max 2 (rowCount - 1) else k

/-- **C3 (counterexample).**  A request of exactly `row_count` clusters
exceeds `row_count - 1` but is *not* clamped: with 3 transactions and
`n_clusters = 3` the algorithm receives 3 clusters, more than
`row_count - 1 = 2`. -/
theorem effClusters_cex :
    effClusters 3 3 = 3 ∧ ¬(effClusters 3 3 ≤ 3 - 1) := by
  constructor <;> simp [effClusters]

/-- **C3 (amended).**  Clamping happens only when the request strictly
exceeds the row count; in that case the effective count is `row_count - 1`
(at least 2, as `row_count ≥ 3`).  In particular 3 transactions with
`n_clusters = 5` yield an effective count of 2. -/
theorem effClusters_clamp :
    (∀ n k : ℤ, 3 ≤ n → n < k → effClusters n k = n - 1 ∧ 2 ≤ effClusters n k)
    ∧ effClusters 3 5 = 2 := by
  constructor
  · intro n k h3 hnk
    have hmax : max (2 : ℤ) (n - 1) = n - 1 := max_eq_right (by omega)
    rw [effClusters, if_pos hnk, hmax]
    omega
  · simp [effClusters]

/-- Witness for `effClusters_clamp` at 4 transactions and 9 requested
clusters. -/
theorem effClusters_clamp_witness :
    effClusters 4 9 = 4 - 1 ∧ 2 ≤ effClusters 4 9 :=
  effClusters_clamp.1 4 9 (by norm_num) (by norm_num)

/-! ## Cluster statistics (`_generate_cluster_persona`, lines 766-817)

These statistics are computed on the transaction list of one cluster
(`cluster_df` in the source). -/

/-- The fixed essentials category set (line 794). -/
def essentialsSet : List String :=
  ["Food & Dining", "Groceries", "Utilities", "Transportation", "Healthcare",
   "Medical", "Insurance"]

/-- Number of expense-type transactions in the cluster (line 790). -/
def expenseCount (c : List Tx) : ℕ :=
  (c.filter (fun t => decide (t.type = "Expense"))).length

/-- Number of transactions (of *any* type) whose category is in the
essentials set (line 795: `cluster_df[cluster_df['category'].isin(essentials)]`
is not restricted to expenses). -/
def essentialsCount (c : List Tx) : ℕ :=
  (c.filter (fun t => decide (t.category ∈ essentialsSet))).length

/-- The essentials share computed by the source (line 796):
`essentials_count / expense_count`, 0 when there is no expense. -/
def essentialsShare (c : List Tx) : ℚ :=
  if 0 < expenseCount c then (essentialsCount c : ℚ) / (expenseCount c : ℚ) else 0

/-- Claim-side definition following the claim's words for comparison: the
fraction of *expense-type* transactions whose category is in the essentials
set, among all expense-type transactions of the cluster. -/
def essentialsShareSpec (c : List Tx) : ℚ :=
  if 0 < expenseCount c then
    (((c.filter (fun t => decide (t.type = "Expense") && decide (t.category ∈ essentialsSet))).length : ℚ)
      / (expenseCount c : ℚ))
  else 0

/-- A cluster with two Income transactions in an essentials category and a
single non-essential expense. -/
def clMix : List Tx :=
  [mkTx 0 50 "Income" "Groceries", mkTx 1 60 "Income" "Groceries",
   mkTx 2 70 "Expense" "Shopping"]

/-- **C4 (counterexample).**  The numerator of the essentials share counts
*all* transactions whose category is essential, not only expense-type ones:
on `clMix` the source computes 2 / 1 = 2 (which exceeds 1), while the
claimed expense-only fraction is 0. -/
theorem essentialsShare_cex :
    essentialsShare clMix = 2 ∧ ¬(essentialsShare clMix ≤ 1)
    ∧ essentialsShareSpec clMix = 0 := by
  have h1 : essentialsCount clMix = 2 := by decide
  have h2 : expenseCount clMix = 1 := by decide
  have h3 : (clMix.filter (fun t => decide (t.type = "Expense")
      && decide (t.category ∈ essentialsSet))).length = 0 := by decide
  rw [essentialsShare, essentialsShareSpec] at *
  rw [h1, h2, h3]
  norm_num

/-- **C4 (amended).**  The essentials share is `essentials_count /
expense_count` where the numerator counts cluster transactions of *any*
type with an essential category; it agrees with the claimed expense-only
fraction and is at most 1 whenever every transaction of the cluster is an
expense (income transactions in essential categories can push it above 1). -/
theorem essentialsShare_expense_only (c : List Tx)
    (hall : ∀ t ∈ c, t.type = "Expense") :
    essentialsShare c = essentialsShareSpec c ∧ essentialsShare c ≤ 1 := by
  have hfeq : (c.filter (fun t => decide (t.type = "Expense") && decide (t.category ∈ essentialsSet)))
      = c.filter (fun t => decide (t.category ∈ essentialsSet)) := by
    apply List.filter_congr
    intro t ht
    simp [hall t ht]
  have hle : essentialsCount c ≤ expenseCount c := by
    have h1 : expenseCount c = c.length := by
      unfold expenseCount
      rw [List.filter_length_eq_length.mpr]
      intro t ht
      simp [hall t ht]
    rw [h1]
    exact List.length_filter_le _ _
  constructor
  · unfold essentialsShare essentialsShareSpec essentialsCount
    rw [hfeq]
  · unfold essentialsShare
    split_ifs with hpos
    · rw [div_le_one (by exact_mod_cast hpos)]
      exact_mod_cast hle
    · norm_num

/-- Witness for `essentialsShare_expense_only` on a two-expense cluster. -/
theorem essentialsShare_expense_only_witness :
    essentialsShare [mkTx 0 5 "Expense" "Groceries", mkTx 1 6 "Expense" "Shopping"]
        = essentialsShareSpec [mkTx 0 5 "Expense" "Groceries", mkTx 1 6 "Expense" "Shopping"]
    ∧ essentialsShare [mkTx 0 5 "Expense" "Groceries", mkTx 1 6 "Expense" "Shopping"] ≤ 1 := by
  refine essentialsShare_expense_only _ ?_
  intro t ht
  simp [mkTx] at ht
  rcases ht with h | h <;> simp [h]

/-! ## Cluster frequency (lines 786-787) -/

/-- Maximum of a list of integers with the list head as the base of the
fold (Python `max` over a nonempty column). -/
def listMaxD (l : List ℤ) : ℤ := l.foldl max (l.headD 0)

/-- Minimum of a list of integers. -/
def listMinD (l : List ℤ) : ℤ := l.foldl min (l.headD 0)

/-- The day span of a cluster: `(cluster_df['date'].max() -
cluster_df['date'].min()).days` (line 786). -/
def dateSpan (c : List Tx) : ℤ :=
  listMaxD (c.map Tx.date) - listMinD (c.map Tx.date)

/-- The approximate monthly frequency of line 787:
`(count / max(date_range, 1)) * 30 if date_range > 0 else count`. -/
def frequency (c : List Tx) : ℚ :=
  if 0 < dateSpan c then
    ((c.length : ℚ) / ((max (dateSpan c) 1 : ℤ) : ℚ)) * 30
  else (c.length : ℚ)

/-- Claim-side definition following the claim's words for comparison:
`(count / max(date_span_days, 1)) * 30` applied unconditionally. -/
def frequencySpec (c : List Tx) : ℚ :=
  ((c.length : ℚ) / ((max (dateSpan c) 1 : ℤ) : ℚ)) * 30

/-- A two-transaction cluster whose transactions fall on one day. -/
def clSameDay : List Tx :=
  [mkTx 5 10 "Expense" "Food", mkTx 5 20 "Expense" "Food"]

/-- **C5 (counterexample).**  For a cluster whose transactions all fall on a
single day (span 0) the source returns the raw count, not the claimed
`(count / max(span, 1)) * 30`: on `clSameDay` the code computes 2 while the
claimed formula gives 60. -/
theorem frequency_cex :
    frequency clSameDay = 2 ∧ frequencySpec clSameDay = 60
    ∧ frequency clSameDay ≠ frequencySpec clSameDay := by
  refine ⟨?_, ?_, ?_⟩ <;>
    norm_num [frequency, frequencySpec, dateSpan, listMaxD, listMinD, clSameDay, mkTx]

/-- **C5 (amended).**  The claimed formula holds exactly for clusters whose
dates span at least one day (where `max(span, 1) = span`); for single-day
clusters the source returns the transaction count itself. -/
theorem frequency_cases (c : List Tx) :
    (0 < dateSpan c → frequency c = ((c.length : ℚ) / ((dateSpan c : ℤ) : ℚ)) * 30)
    ∧ (dateSpan c ≤ 0 → frequency c = (c.length : ℚ)) := by
  constructor
  · intro h
    rw [frequency, if_pos h, max_eq_left (by omega : (1 : ℤ) ≤ dateSpan c)]
  · intro h
    rw [frequency, if_neg (by omega)]

/-- Witness for `frequency_cases` on a two-transaction cluster spanning five
days: frequency `(2 / 5) * 30 = 12`. -/
theorem frequency_cases_witness :
    frequency [mkTx 0 10 "Expense" "Food", mkTx 5 20 "Expense" "Food"]
      = (((([mkTx 0 10 "Expense" "Food", mkTx 5 20 "Expense" "Food"] : List Tx).length : ℚ))
          / ((dateSpan [mkTx 0 10 "Expense" "Food", mkTx 5 20 "Expense" "Food"] : ℤ) : ℚ)) * 30 := by
  refine (frequency_cases _).1 ?_
  norm_num [dateSpan, listMaxD, listMinD, mkTx]

/-! ## Batch anomaly detection post-processing (`/anomalies`, lines 213-284)

The IsolationForest labels (`fit_predict`, -1 for outliers) and raw scores
(`score_samples`) are opaque model outputs, taken here as parameters
`labels` and `sscores` (one entry per transaction row). -/

/-- A placeholder transaction for out-of-range lookups (never hit when the
label list has one entry per transaction). -/
def dummyTx : Tx := mkTx 0 0 "Expense" "none"

/-- Row indices labelled `-1` by the detector, in ascending row order
(`np.where(anomaly_labels == -1)[0]`, line 246). -/
def anomalyIndices (labels : List ℤ) : List ℕ :=
  (List.range labels.length).filter (fun i => decide (labels.getD i 1 = -1))

/-- The `scores` response field (line 250): the sign-flipped raw scores of
the anomalous rows, in the same ascending row order. -/
def negScores (sscores : List ℚ) (idxs : List ℕ) : List ℚ :=
  idxs.map (fun i => -(sscores.getD i 0))

/-- An entry of `high_risk_transactions` (lines 253-262); the generated
explanation string is not modelled (no claim concerns it). -/
structure HighRisk where
  index : ℕ
  amount : ℚ
  category : String
  anomaly_score : ℚ
deriving DecidableEq

/-- Descending-score order on high-risk entries
(`high_risk.sort(key=..., reverse=True)`, line 265). -/
def hrGE (a b : HighRisk) : Prop := b.anomaly_score ≤ a.anomaly_score

instance : DecidableRel hrGE := fun a b =>
  inferInstanceAs (Decidable (b.anomaly_score ≤ a.anomaly_score))

instance : IsTotal HighRisk hrGE :=
  ⟨fun a b => le_total b.anomaly_score a.anomaly_score⟩

instance : IsTrans HighRisk hrGE :=
  ⟨fun _ _ _ hab hbc => le_trans hbc hab⟩

/-- The `high_risk_transactions` list: one entry per anomalous row, sorted
by descending anomaly score (a stable sort models Python's stable sort). -/
def highRiskOf (txs : List Tx) (sscores : List ℚ) (idxs : List ℕ) : List HighRisk :=
  List.insertionSort hrGE
    (idxs.map (fun i =>
      ⟨i, (txs.getD i dummyTx).amount, (txs.getD i dummyTx).category, -(sscores.getD i 0)⟩))

/-- The fields of `AnomalyResponse` the claims concern. -/
structure AnomResp where
  anomalies : List ℕ
  scores : List ℚ
  high_risk : List HighRisk

/-- The response body built from the detector outputs (lines 246-280). -/
def mkAnomResp (txs : List Tx) (labels : List ℤ) (sscores : List ℚ) : AnomResp :=
  { anomalies := anomalyIndices labels
    scores := negScores sscores (anomalyIndices labels)
    high_risk := highRiskOf txs sscores (anomalyIndices labels) }

/-- Five concrete transactions used for anomaly-response inputs. -/
def txs5 : List Tx :=
  [mkTx 0 10 "Expense" "Food", mkTx 1 20 "Expense" "Food", mkTx 2 30 "Expense" "Food",
   mkTx 3 40 "Expense" "Food", mkTx 4 5000 "Expense" "Rent"]

/-- Detector labels marking rows 0 and 4 as outliers. -/
def lab5 : List ℤ := [-1, 1, 1, 1, -1]

/-- Raw detector scores: row 4 is more anomalous than row 0. -/
def sc5 : List ℚ := [-1/2, 0, 0, 0, -9/10]

/-- **C6 (counterexample).**  The `scores` field is *not* sorted in
descending order: it lists the sign-flipped scores in ascending row order
(line 250); with detector outputs `lab5`/`sc5` it is `[1/2, 9/10]`, which
is increasing.  (Only `high_risk_transactions` is sorted, line 265.) -/
theorem anomaly_scores_not_sorted_cex :
    (∀ i ∈ (mkAnomResp txs5 lab5 sc5).anomalies, i < txs5.length)
    ∧ (mkAnomResp txs5 lab5 sc5).scores = [1/2, 9/10]
    ∧ ¬ List.Sorted (fun a b : ℚ => b ≤ a) (mkAnomResp txs5 lab5 sc5).scores := by
  have hidx : anomalyIndices lab5 = [0, 4] := by decide
  have hsc : (mkAnomResp txs5 lab5 sc5).scores = [1/2, 9/10] := by
    show negScores sc5 (anomalyIndices lab5) = _
    rw [hidx]
    norm_num [negScores, sc5]
  refine ⟨by decide, hsc, ?_⟩
  rw [hsc]
  intro hs
  have h01 := List.rel_of_sorted_cons hs (9/10) (by simp)
  norm_num at h01

/-- **C6 (amended).**  For every accepted batch anomaly request and all
detector outputs: the `anomalies` list is a subset of the row indices
`{0..n-1}`; the `scores` field carries the sign-flipped scores of those
rows in the *same (ascending-index) order* as `anomalies`; and the
`high_risk_transactions` list (which also carries the scores) is sorted in
descending order of anomaly score. -/
theorem anomaly_resp_invariants (txs : List Tx) (labels : List ℤ) (sscores : List ℚ)
    (hlen : labels.length = txs.length) :
    (∀ i ∈ (mkAnomResp txs labels sscores).anomalies, i < txs.length)
    ∧ (mkAnomResp txs labels sscores).scores
        = (mkAnomResp txs labels sscores).anomalies.map (fun i => -(sscores.getD i 0))
    ∧ List.Sorted hrGE (mkAnomResp txs labels sscores).high_risk := by
  refine ⟨?_, rfl, ?_⟩
  · intro i hi
    have h1 : i ∈ List.range labels.length := List.mem_of_mem_filter hi
    rw [List.mem_range] at h1
    omega
  · exact List.sorted_insertionSort hrGE _

/-- Witness for `anomaly_resp_invariants` at the concrete detector outputs
`lab5`/`sc5` over `txs5`: the high-risk list is sorted by descending score,
and the anomalous index 0 is below the row count. -/
theorem anomaly_resp_invariants_witness :
    List.Sorted hrGE (mkAnomResp txs5 lab5 sc5).high_risk
    ∧ (0 < txs5.length) :=
  ⟨(anomaly_resp_invariants txs5 lab5 sc5 (by decide)).2.2,
   (anomaly_resp_invariants txs5 lab5 sc5 (by decide)).1 0 (by decide)⟩

/-! ## Clustering response post-processing (`/cluster`, lines 172-189)

The KMeans labels (`fit_predict`) are opaque model outputs, taken as the
parameter `labels` (one entry per transaction row).  The response's cluster
`id` fields are the distinct raw labels in ascending order
(`sorted(cluster_dict.keys())`), and each cluster carries the row indices
assigned to its label, in ascending row order. -/

/-- Row indices assigned to label `c` (the per-cluster transaction list of
lines 174-183 keeps indices in ascending order of `i`). -/
def clusterIndices (labels : List ℕ) (c : ℕ) : List ℕ :=
  (List.range labels.length).filter (fun i => decide (labels.getD i 0 = c))

/-- The sorted distinct labels (`sorted(cluster_dict.keys())`, line 187). -/
def clusterIds (labels : List ℕ) : List ℕ :=
  List.insertionSort (fun a b => a ≤ b) labels.dedup

/-- The cluster list of the response: `(id, transaction indices)` per
cluster, in ascending id order. -/
def clusterList (labels : List ℕ) : List (ℕ × List ℕ) :=
  (clusterIds labels).map (fun c => (c, clusterIndices labels c))

theorem clusterIds_mem (labels : List ℕ) (c : ℕ) :
    c ∈ clusterIds labels ↔ c ∈ labels := by
  rw [clusterIds, (List.perm_insertionSort _ _).mem_iff, List.mem_dedup]

theorem clusterIds_nodup (labels : List ℕ) : (clusterIds labels).Nodup :=
  ((List.perm_insertionSort _ _).nodup_iff).mpr (List.nodup_dedup labels)

theorem clusterIds_eq_range (labels : List ℕ) (k : ℕ)
    (hcov : ∀ c, c ∈ labels ↔ c < k) :
    clusterIds labels = List.range k := by
  apply List.eq_of_perm_of_sorted (r := fun a b : ℕ => a ≤ b)
  · refine (List.perm_ext_iff_of_nodup (clusterIds_nodup labels) (List.nodup_range k)).mpr ?_
    intro c
    rw [clusterIds_mem, hcov, List.mem_range]
  · exact List.sorted_insertionSort _ _
  · exact (List.pairwise_lt_range k).imp le_of_lt

theorem count_clusterIndices (labels : List ℕ) (c i : ℕ) :
    (clusterIndices labels c).count i
      = if i < labels.length ∧ labels.getD i 0 = c then 1 else 0 := by
  by_cases hp : labels.getD i 0 = c
  · rw [clusterIndices, List.count_filter (by simpa using hp)]
    by_cases hi : i < labels.length
    · rw [List.count_eq_one_of_mem (List.nodup_range _) (List.mem_range.mpr hi),
          if_pos ⟨hi, hp⟩]
    · rw [List.count_eq_zero_of_not_mem (by simpa using hi), if_neg (fun h => hi h.1)]
  · rw [clusterIndices, List.count_eq_zero_of_not_mem
        (fun hmem => hp (by simpa using (List.mem_filter.mp hmem).2)),
      if_neg (fun h => hp h.2)]

theorem count_bind_clusters (labels : List ℕ) (i : ℕ) (ids : List ℕ) (hnd : ids.Nodup) :
    ((ids.flatMap (clusterIndices labels)).count i)
      = if i < labels.length ∧ labels.getD i 0 ∈ ids then 1 else 0 := by
  induction ids with
  | nil => simp
  | cons c cs ih =>
    have hne : c ∉ cs := (List.nodup_cons.mp hnd).1
    rw [List.flatMap_cons, List.count_append, count_clusterIndices,
        ih (List.nodup_cons.mp hnd).2]
    by_cases h1 : i < labels.length
    · by_cases h2 : labels.getD i 0 = c
      · have hni : labels.getD i 0 ∉ cs := by rw [h2]; exact hne
        rw [if_pos ⟨h1, h2⟩, if_neg (fun h => hni h.2),
            if_pos ⟨h1, List.mem_cons.mpr (Or.inl h2)⟩]
      · by_cases h3 : labels.getD i 0 ∈ cs
        · rw [if_neg (fun h => h2 h.2), if_pos ⟨h1, h3⟩,
              if_pos ⟨h1, List.mem_cons.mpr (Or.inr h3)⟩]
        · rw [if_neg (fun h => h2 h.2), if_neg (fun h => h3 h.2),
              if_neg (fun h => (List.mem_cons.mp h.2).elim h2 h3)]
    · rw [if_neg (fun h => h1 h.1), if_neg (fun h => h1 h.1), if_neg (fun h => h1 h.1)]

/-- **C9.**  For any transaction list and any KMeans label assignment (one
label per row) whose labels cover exactly `{0..k-1}` — scikit-learn's
KMeans returns labels in `{0..k-1}` with no empty cluster — the response
cluster ids are exactly the contiguous ascending range `0..k-1`, and every
row index `i < n` belongs to exactly one cluster's transaction list (count
1, and count 0 for out-of-range indices): the clusters partition
`{0..n-1}`. -/
theorem cluster_partition (txs : List Tx) (labels : List ℕ) (k : ℕ)
    (hlen : labels.length = txs.length)
    (hcov : ∀ c, c ∈ labels ↔ c < k) :
    (clusterList labels).map Prod.fst = List.range k
    ∧ ∀ i : ℕ, ((clusterList labels).flatMap Prod.snd).count i
        = if i < txs.length then 1 else 0 := by
  constructor
  · rw [clusterList, List.map_map,
        show (Prod.fst ∘ fun c => (c, clusterIndices labels c)) = id from rfl, List.map_id]
    exact clusterIds_eq_range labels k hcov
  · intro i
    have hbind : (clusterList labels).flatMap Prod.snd
        = (clusterIds labels).flatMap (clusterIndices labels) := by
      rw [clusterList, List.flatMap_map]
    rw [hbind, count_bind_clusters labels i _ (clusterIds_nodup labels), ← hlen]
    by_cases h1 : i < labels.length
    · have hmem : labels.getD i 0 ∈ labels := by
        rw [List.getD_eq_getElem _ _ h1]
        exact List.getElem_mem _
      rw [if_pos ⟨h1, (clusterIds_mem labels _).mpr hmem⟩, if_pos h1]
    · rw [if_neg (fun h => h1 h.1), if_neg h1]

/-- Witness for `cluster_partition`: labels `[0, 1, 0]` over three
transactions, covering `{0, 1}`. -/
theorem cluster_partition_witness :
    (clusterList [0, 1, 0]).map Prod.fst = List.range 2
    ∧ ((clusterList [0, 1, 0]).flatMap Prod.snd).count 1
        = if 1 < ([mkTx 0 1 "Expense" "A", mkTx 1 2 "Expense" "A", mkTx 2 3 "Expense" "A"] : List Tx).length
          then 1 else 0 :=
  ⟨(cluster_partition [mkTx 0 1 "Expense" "A", mkTx 1 2 "Expense" "A", mkTx 2 3 "Expense" "A"]
      [0, 1, 0] 2 rfl (by intro c; simp; omega)).1,
   (cluster_partition [mkTx 0 1 "Expense" "A", mkTx 1 2 "Expense" "A", mkTx 2 3 "Expense" "A"]
      [0, 1, 0] 2 rfl (by intro c; simp; omega)).2 1⟩

/-! ## Expense forecasting (`/forecast`, lines 286-413)

The daily series is the per-calendar-day sum of expense amounts, ordered by
ascending date (pandas `groupby` sorts its keys).  The standard deviation
of the daily totals (`std_daily`, line 314) is irrational in general, so it
is passed as a parameter `std : Option ℚ` constrained by `stdCompat` to be
a nonnegative square root of the sample variance — `none` embeds the `NaN`
that pandas produces for a single-day series. -/

/-- The distinct expense dates, ascending (`groupby(df['date'].dt.date)`
keys, lines 308-310). -/
def dailyDates (txs : List Tx) : List ℤ :=
  List.insertionSort (fun a b : ℤ => a ≤ b) ((expenseTxs txs).map Tx.date).dedup

/-- Total expense amount on day `d` (the `groupby(...)['amount'].sum()`). -/
def dayTotal (txs : List Tx) (d : ℤ) : ℚ :=
  (((expenseTxs txs).filter (fun t => decide (t.date = d))).map Tx.amount).sum

/-- The daily expense series, by ascending date. -/
def dailyTotals (txs : List Tx) : List ℚ :=
  (dailyDates txs).map (dayTotal txs)

/-- The smoothing weight of `ewm(span=min(7, len), adjust=False)`:
`alpha = 2 / (span + 1)` (line 329). -/
def alphaOf (n : ℕ) : ℚ := 2 / (((min 7 n : ℕ) : ℚ) + 1)

/-- Tail of the exponential moving average recurrence
`y_t = (1 - alpha) * y_(t-1) + alpha * x_t`. -/
def emaFrom (a prev : ℚ) : List ℚ → List ℚ
  | [] => []
  | x :: xs => ((1 - a) * prev + a * x) :: emaFrom a ((1 - a) * prev + a * x) xs

/-- The EMA series with `adjust=False` (`y_0 = x_0`). -/
def emaOf (a : ℚ) : List ℚ → List ℚ
  | [] => []
  | x :: xs => x :: emaFrom a x xs

/-- `current_ema = ema_val.iloc[-1] if len(ema_val) > 0 else mean_daily`
(line 330). -/
def currentEma (txs : List Tx) : ℚ :=
  (emaOf (alphaOf (dailyTotals txs).length) (dailyTotals txs)).getLastD (mean (dailyTotals txs))

/-- The last `k` entries of a list (numpy `[-k:]`). -/
def takeLast (k : ℕ) (l : List ℚ) : List ℚ := l.drop (l.length - k)

/-- Least-squares slope of `np.polyfit(range(k), ys, 1)`.  The source's
second fit (line 353) uses the original indices `n-7..n-1` as x values; a
constant shift of the x values leaves the least-squares slope unchanged,
so `range k` is used for both. -/
def lsSlope (ys : List ℚ) : ℚ :=
  ((ys.length : ℚ) * ((((List.range ys.length).map (fun i => (i : ℚ))).zip ys).map
      (fun p => p.1 * p.2)).sum
    - ((List.range ys.length).map (fun i => (i : ℚ))).sum * ys.sum)
  / ((ys.length : ℚ) * (((List.range ys.length).map (fun i => (i : ℚ))).map (fun x => x ^ 2)).sum
    - (((List.range ys.length).map (fun i => (i : ℚ))).sum) ^ 2)

/-- The trend slope of lines 348-353: the slope over the last 7 EMA values
when at least 7 exist, else over the last 7 raw values when at least 7
exist, else 0.  (The EMA series has the same length as the raw series, so
the middle branch is unreachable; it is kept for fidelity.) -/
def trendCoef (totals : List ℚ) : ℚ :=
  if 7 ≤ (emaOf (alphaOf totals.length) totals).length then
    lsSlope (takeLast 7 (emaOf (alphaOf totals.length) totals))
  else if 7 ≤ totals.length then lsSlope (takeLast 7 totals)
  else 0

/-- Weekday residue of an integer day number.  The true weekday is this
residue up to a fixed epoch offset; the source only requires that history
days (`dt.dayofweek`) and forecast days (`weekday()`) use the *same*
labelling, which any fixed residue satisfies. -/
def weekdayOf (d : ℤ) : ℤ := d % 7

/-- `last_date = daily_expenses['date'].max()` (line 326). -/
def lastDateOf (txs : List Tx) : ℤ := listMaxD ((expenseTxs txs).map Tx.date)

/-- The per-weekday seasonal factor (lines 332-346): for at least 14 days
of history, each present weekday's mean daily total relative to the mean of
those per-weekday means; 1 otherwise. -/
def seasonalFactor (txs : List Tx) (w : ℤ) : ℚ :=
  if 14 ≤ (dailyDates txs).length then
    if w ∈ ((dailyDates txs).map weekdayOf).dedup
        ∧ 0 < mean ((((dailyDates txs).map weekdayOf).dedup).map (fun day =>
            mean (((dailyDates txs).filter (fun d => decide (weekdayOf d = day))).map (dayTotal txs))))
    then
      mean (((dailyDates txs).filter (fun d => decide (weekdayOf d = w))).map (dayTotal txs))
        / mean ((((dailyDates txs).map weekdayOf).dedup).map (fun day =>
            mean (((dailyDates txs).filter (fun d => decide (weekdayOf d = day))).map (dayTotal txs))))
    else 1
  else 1

/-- Confidence for forecast day `i` of horizon `fd` (lines 369-372):
`min(0.95, max(0.6, 1 - (i / fd * 0.3)) + (0.1 if seasonality else 0))`. -/
def confAt (hasSeason : Bool) (fd : ℤ) (i : ℕ) : ℚ :=
  min 0.95 (max 0.6 (1 - ((i : ℚ) / (fd : ℚ)) * 0.3) + (if hasSeason then 0.1 else 0))

/-- The interval half-width `std_daily * (1 - confidence) * 1.5`
(line 375); `none` is the `NaN` arising from a `NaN` `std_daily`. -/
def ciAt (txs : List Tx) (fd : ℤ) (std : Option ℚ) (i : ℕ) : Option ℚ :=
  std.map (fun s => s * (1 - confAt (decide (14 ≤ (dailyDates txs).length)) fd i) * 1.5)

/-- The predicted expense for forecast day `i` (lines 361-367):
`max(100, max(0, ema + trend * i) * seasonal_factor)`. -/
def predictedAt (txs : List Tx) (i : ℕ) : ℚ :=
  max 100 ((max 0 (currentEma txs + trendCoef (dailyTotals txs) * (i : ℚ)))
    * seasonalFactor txs (weekdayOf (lastDateOf txs + (i : ℤ))))

/-- A forecast point (lines 377-384).  `range_low` is always a number: the
source computes `max(0, predicted - ci)` with Python's `max`, which returns
its first argument `0` when the second is `NaN`.  `range_high` is
`predicted + ci`, which is `NaN` (here `none`) when `ci` is. -/
structure FPoint where
  date : ℤ
  predicted : ℚ
  confidence : ℚ
  range_low : ℚ
  range_high : Option ℚ
deriving DecidableEq

/-- Placeholder forecast point for out-of-range lookups. -/
def dummyFPoint : FPoint := ⟨0, 0, 0, 0, none⟩

/-- The forecast point for day `i` (1-based). -/
def mkPoint (txs : List Tx) (fd : ℤ) (std : Option ℚ) (i : ℕ) : FPoint :=
  { date := lastDateOf txs + (i : ℤ)
    predicted := predictedAt txs i
    confidence := confAt (decide (14 ≤ (dailyDates txs).length)) fd i
    range_low :=
      match ciAt txs fd std i with
      | none => 0
      | some c => max 0 (predictedAt txs i - c)
    range_high := (ciAt txs fd std i).map (fun c => predictedAt txs i + c) }

/-- The forecast list: one point per `i in range(1, forecast_days + 1)`
(line 356); a nonpositive horizon yields the empty list, as in Python. -/
def forecastPoints (txs : List Tx) (fd : ℤ) (std : Option ℚ) : List FPoint :=
  (List.range fd.toNat).map (fun j => mkPoint txs fd std (j + 1))

/-- The claimed bound `predicted_expense ≤ range_high`, false when the
upper bound is `NaN`. -/
def rangeHighOkB (p : FPoint) : Bool :=
  match p.range_high with
  | some hi => decide (p.predicted ≤ hi)
  | none => false

/-- Constrains the `std` parameter to be pandas' `std_daily`: `NaN` exactly
when fewer than two daily values exist, otherwise the nonnegative square
root of the sample variance of the daily totals. -/
def stdCompat (totals : List ℚ) (std : Option ℚ) : Bool :=
  match svar totals, std with
  | none, none => true
  | some v, some s => decide (0 ≤ s) && decide (s * s = v)
  | _, _ => false

/-! ## Endpoint wrappers and validation (lines 142-152, 213-223, 286-305)

Each handler body runs inside `try: ... except Exception as e:
raise HTTPException(status_code=500, detail=str(e))`.  `HTTPException` is a
subclass of `Exception`, so a validation `HTTPException(400, msg)` raised
inside the `try` is caught by the blanket handler and re-raised as status
500 with detail `str(e) = "400: " + msg`.  `wrapException` models that
re-raise. -/

/-- An HTTP error: status code and detail string. -/
structure ErrResp where
  status : ℕ
  detail : String
deriving DecidableEq

/-- The blanket `except Exception` re-raise: status 500, detail
`str(e)` (Starlette formats `HTTPException` as `"{status_code}: {detail}"`). -/
def wrapException (e : ErrResp) : ErrResp :=
  ⟨500, toString e.status ++ ": " ++ e.detail⟩

/-- The `/cluster` endpoint: validation of lines 151-152 wrapped by the
handler of lines 209-211, then the response clusters built from the KMeans
labels (the persona/feature-importance fields carry no claim and are not
modelled). -/
def clusterEndpoint (txs : List Tx) (_nClusters : ℤ) (labels : List ℕ) :
    Except ErrResp (List (ℕ × List ℕ)) :=
  if txs.length < 3 then
    .error (wrapException ⟨400, "Need at least 3 transactions for clustering"⟩)
  else .ok (clusterList labels)

/-- The `/anomalies` endpoint: validation of lines 222-223 wrapped by the
handler of lines 282-284, then the response built from the detector
outputs. -/
def anomaliesEndpoint (txs : List Tx) (labels : List ℤ) (sscores : List ℚ) :
    Except ErrResp AnomResp :=
  if txs.length < 5 then
    .error (wrapException ⟨400, "Need at least 5 transactions for anomaly detection"⟩)
  else .ok (mkAnomResp txs labels sscores)

/-- The `/forecast` endpoint: validations of lines 295-296 and 304-305
wrapped by the handler of lines 411-413, then the forecast list. -/
def forecastEndpoint (txs : List Tx) (fd : ℤ) (std : Option ℚ) :
    Except ErrResp (List FPoint) :=
  if txs.length < 10 then
    .error (wrapException ⟨400, "Need at least 10 transactions for forecasting"⟩)
  else if (expenseTxs txs).length < 10 then
    .error (wrapException ⟨400, "Need at least 10 expense transactions"⟩)
  else .ok (forecastPoints txs fd std)

/-- `n` distinct single-expense transactions on consecutive days. -/
def repTxs (n : ℕ) : List Tx :=
  (List.range n).map (fun i => mkTx (i : ℤ) 1 "Expense" "A")

/-- **C1.**  Below-minimum requests are rejected before any computation,
but the validation failure reaches the caller as HTTP **500**, not as the
claimed 400-class error: the `HTTPException(400, ...)` raised inside the
`try` block is caught by the blanket `except Exception` and re-raised as
status 500 whose detail merely embeds the original message.  Shown at 2
transactions for `/cluster` (minimum 3), 4 for `/anomalies` (minimum 5),
and 9 for `/forecast` (minimum 10), for every possible model output. -/
theorem min_size_rejected_as_500 :
    clusterEndpoint (repTxs 2) 5 []
      = .error ⟨500, "400: Need at least 3 transactions for clustering"⟩
    ∧ anomaliesEndpoint (repTxs 4) [] []
      = .error ⟨500, "400: Need at least 5 transactions for anomaly detection"⟩
    ∧ forecastEndpoint (repTxs 9) 30 none
      = .error ⟨500, "400: Need at least 10 transactions for forecasting"⟩ :=
  ⟨rfl, rfl, rfl⟩

/-! ## Forecast shape and confidence theorems (C7, C8) -/

theorem le_foldl_max (l : List ℤ) : ∀ a : ℤ, a ≤ l.foldl max a ∧ ∀ x ∈ l, x ≤ l.foldl max a := by
  induction l with
  | nil => exact fun a => ⟨le_refl a, by simp⟩
  | cons y ys ih =>
    intro a
    refine ⟨le_trans (le_max_left a y) (ih (max a y)).1, ?_⟩
    intro x hx
    rcases List.mem_cons.mp hx with rfl | hmem
    · exact le_trans (le_max_right a x) (ih (max a x)).1
    · exact (ih (max a y)).2 x hmem

theorem le_listMaxD {l : List ℤ} {x : ℤ} (hx : x ∈ l) : x ≤ listMaxD l :=
  (le_foldl_max l _).2 x hx

theorem forecastPoints_length (txs : List Tx) (fd : ℤ) (std : Option ℚ) :
    (forecastPoints txs fd std).length = fd.toNat := by
  rw [forecastPoints, List.length_map, List.length_range]

theorem forecastPoints_getD (txs : List Tx) (fd : ℤ) (std : Option ℚ) (j : ℕ) (d : FPoint)
    (h : j < (forecastPoints txs fd std).length) :
    (forecastPoints txs fd std).getD j d = mkPoint txs fd std (j + 1) := by
  rw [List.getD_eq_getElem _ _ h]
  rw [forecastPoints_length] at h
  simp [forecastPoints]

/-- Extracts the square root value from a satisfied `stdCompat` when the
series has at least two entries. -/
theorem stdCompat_some (totals : List ℚ) (std : Option ℚ)
    (h2 : 2 ≤ totals.length) (hc : stdCompat totals std = true) :
    ∃ s, std = some s ∧ 0 ≤ s := by
  obtain ⟨v, hv⟩ : ∃ v, svar totals = some v := by
    rw [svar, if_neg (by omega)]
    exact ⟨_, rfl⟩
  rw [stdCompat.eq_def, hv] at hc
  cases std with
  | none => exact absurd hc (by simp)
  | some s =>
    simp only [Bool.and_eq_true, decide_eq_true_eq] at hc
    exact ⟨s, rfl, hc.1⟩

/-- **C7 (amended).**  For every accepted forecasting request with a
nonnegative horizon whose daily expense series has at least two distinct
days (so that `std_daily` is a number rather than `NaN`): the endpoint
returns the forecast list; the list has exactly `forecast_days` points;
every expense date is at most the latest historical date; and point `j`
(0-based) is dated `last_date + j + 1` — consecutive days starting the day
after the latest historical date — with
`range_low ≤ predicted_expense ≤ range_high`. -/
theorem forecast_shape (txs : List Tx) (fd : ℤ) (std : Option ℚ)
    (h10 : 10 ≤ txs.length) (hE : 10 ≤ (expenseTxs txs).length)
    (hdays : 2 ≤ (dailyDates txs).length)
    (hstd : stdCompat (dailyTotals txs) std = true)
    (hfd : 0 ≤ fd) :
    forecastEndpoint txs fd std = .ok (forecastPoints txs fd std)
    ∧ ((forecastPoints txs fd std).length : ℤ) = fd
    ∧ (∀ t ∈ expenseTxs txs, t.date ≤ lastDateOf txs)
    ∧ (∀ j : ℕ, j < (forecastPoints txs fd std).length →
        ((forecastPoints txs fd std).getD j dummyFPoint).date = lastDateOf txs + (j : ℤ) + 1
        ∧ ((forecastPoints txs fd std).getD j dummyFPoint).range_low
            ≤ ((forecastPoints txs fd std).getD j dummyFPoint).predicted
        ∧ rangeHighOkB ((forecastPoints txs fd std).getD j dummyFPoint) = true) := by
  have hlen2 : 2 ≤ (dailyTotals txs).length := by
    rw [dailyTotals, List.length_map]; exact hdays
  obtain ⟨s, hs, hs0⟩ := stdCompat_some _ _ hlen2 hstd
  subst hs
  refine ⟨?_, ?_, ?_, ?_⟩
  · rw [forecastEndpoint, if_neg (by omega), if_neg (by omega)]
  · rw [forecastPoints_length]
    omega
  · intro t ht
    exact le_listMaxD (List.mem_map_of_mem Tx.date ht)
  · intro j hj
    rw [forecastPoints_getD _ _ _ _ _ hj]
    have hconf : confAt (decide (14 ≤ (dailyDates txs).length)) fd (j + 1) ≤ 0.95 :=
      min_le_left _ _
    have hci : 0 ≤ s * (1 - confAt (decide (14 ≤ (dailyDates txs).length)) fd (j + 1)) * 1.5 := by
      have : (0 : ℚ) ≤ 1 - confAt (decide (14 ≤ (dailyDates txs).length)) fd (j + 1) := by
        linarith
      positivity
    have hp100 : (100 : ℚ) ≤ predictedAt txs (j + 1) := le_max_left _ _
    refine ⟨?_, ?_, ?_⟩
    · show lastDateOf txs + ((j + 1 : ℕ) : ℤ) = lastDateOf txs + (j : ℤ) + 1
      push_cast
      ring
    · show (match ciAt txs fd (some s) (j + 1) with
        | none => (0 : ℚ)
        | some c => max 0 (predictedAt txs (j + 1) - c)) ≤ predictedAt txs (j + 1)
      rw [ciAt, Option.map_some']
      refine max_le (by linarith) (by linarith)
    · show rangeHighOkB _ = true
      rw [rangeHighOkB]
      simp only [mkPoint, ciAt, Option.map_some']
      exact decide_eq_true (by linarith)

/-- Ten distinct expense transactions over the three days 0, 1, 2 with
daily totals 100, 101, 102 — sample variance 1, so `std_daily = 1`. -/
def txsW : List Tx :=
  [mkTx 0 13 "Expense" "Food", mkTx 0 13 "Expense" "Rent", mkTx 0 13 "Expense" "Food",
   mkTx 0 13 "Expense" "Rent", mkTx 0 12 "Expense" "Food", mkTx 0 12 "Expense" "Rent",
   mkTx 0 12 "Expense" "Food", mkTx 0 12 "Expense" "Rent",
   mkTx 1 101 "Expense" "Food", mkTx 2 102 "Expense" "Food"]

theorem dailyTotals_txsW : dailyTotals txsW = [100, 101, 102] := by
  have hdd : dailyDates txsW = [0, 1, 2] := by decide
  have h0 : (((expenseTxs txsW).filter (fun t => decide (t.date = 0))).map Tx.amount)
      = [13, 13, 13, 13, 12, 12, 12, 12] := by decide
  have h1 : (((expenseTxs txsW).filter (fun t => decide (t.date = 1))).map Tx.amount)
      = [101] := by decide
  have h2 : (((expenseTxs txsW).filter (fun t => decide (t.date = 2))).map Tx.amount)
      = [102] := by decide
  rw [dailyTotals, hdd]
  show [dayTotal txsW 0, dayTotal txsW 1, dayTotal txsW 2] = _
  rw [dayTotal, dayTotal, dayTotal, h0, h1, h2]
  norm_num

theorem stdCompat_txsW : stdCompat (dailyTotals txsW) (some 1) = true := by
  have hv : svar [(100 : ℚ), 101, 102] = some 1 := by
    rw [svar, if_neg (by norm_num)]
    norm_num [mean]
  rw [stdCompat.eq_def, dailyTotals_txsW, hv]
  norm_num

/-- Witness for `forecast_shape` at `txsW`, horizon 2, `std_daily = 1`:
the instantiated endpoint equation, length, and the point-0 date and
bounds. -/
theorem forecast_shape_witness :
    forecastEndpoint txsW 2 (some 1) = .ok (forecastPoints txsW 2 (some 1))
    ∧ ((forecastPoints txsW 2 (some 1)).length : ℤ) = 2
    ∧ ((forecastPoints txsW 2 (some 1)).getD 0 dummyFPoint).date = lastDateOf txsW + 0 + 1
    ∧ ((forecastPoints txsW 2 (some 1)).getD 0 dummyFPoint).range_low
        ≤ ((forecastPoints txsW 2 (some 1)).getD 0 dummyFPoint).predicted
    ∧ rangeHighOkB ((forecastPoints txsW 2 (some 1)).getD 0 dummyFPoint) = true := by
  have h := forecast_shape txsW 2 (some 1) (by decide) (by decide) (by decide)
    stdCompat_txsW (by norm_num)
  have h0 : (0 : ℕ) < (forecastPoints txsW 2 (some 1)).length := by
    rw [forecastPoints_length]; decide
  exact ⟨h.1, h.2.1, (h.2.2.2 0 h0).1, (h.2.2.2 0 h0).2.1, (h.2.2.2 0 h0).2.2⟩

/-- Ten expense transactions all on day 0: a single-day daily series, whose
pandas standard deviation is `NaN`. -/
def txsOne : List Tx := List.replicate 10 (mkTx 0 10 "Expense" "Food")

/-- **C7 (counterexample).**  Two accepted requests violating the claim:
(a) all ten expenses on one day make `std_daily` `NaN` (`stdCompat ... none`),
so the returned point has a `NaN` upper bound and
`predicted_expense ≤ range_high` fails; (b) a horizon of `-1` is accepted
(the source never validates `forecast_days`) and returns 0 points, not
`forecast_days` points. -/
theorem forecast_shape_cex :
    (10 ≤ txsOne.length ∧ 10 ≤ (expenseTxs txsOne).length)
    ∧ stdCompat (dailyTotals txsOne) none = true
    ∧ forecastEndpoint txsOne 1 none = .ok (forecastPoints txsOne 1 none)
    ∧ ((forecastPoints txsOne 1 none).getD 0 dummyFPoint).range_high = none
    ∧ rangeHighOkB ((forecastPoints txsOne 1 none).getD 0 dummyFPoint) = false
    ∧ forecastEndpoint txsOne (-1) none = .ok (forecastPoints txsOne (-1) none)
    ∧ ((forecastPoints txsOne (-1) none).length : ℤ) = 0 :=
  ⟨⟨by decide, by decide⟩, rfl, rfl, rfl, rfl, rfl, rfl⟩

/-- **C8.**  For every accepted forecasting request with fewer than 14 days
of daily expense history (no seasonality boost): the endpoint returns the
forecast list, the confidence of point `j` (0-based, day `i = j + 1` of
horizon `N = forecast_days`) is exactly
`min(0.95, max(0.6, 1 - (i / N) * 0.3))`, and confidence is non-increasing
along the horizon. -/
theorem forecast_confidence (txs : List Tx) (fd : ℤ) (std : Option ℚ)
    (h10 : 10 ≤ txs.length) (hE : 10 ≤ (expenseTxs txs).length)
    (hno : (dailyDates txs).length < 14) :
    forecastEndpoint txs fd std = .ok (forecastPoints txs fd std)
    ∧ (∀ j : ℕ, j < (forecastPoints txs fd std).length →
        ((forecastPoints txs fd std).getD j dummyFPoint).confidence
          = min 0.95 (max 0.6 (1 - (((j : ℚ) + 1) / (fd : ℚ)) * 0.3)))
    ∧ (∀ j1 j2 : ℕ, j1 ≤ j2 → j2 < (forecastPoints txs fd std).length →
        ((forecastPoints txs fd std).getD j2 dummyFPoint).confidence
          ≤ ((forecastPoints txs fd std).getD j1 dummyFPoint).confidence) := by
  have hb : decide (14 ≤ (dailyDates txs).length) = false := by
    simp only [decide_eq_false_iff_not]
    omega
  have hconf : ∀ j : ℕ, j < (forecastPoints txs fd std).length →
      ((forecastPoints txs fd std).getD j dummyFPoint).confidence
        = min 0.95 (max 0.6 (1 - (((j : ℚ) + 1) / (fd : ℚ)) * 0.3)) := by
    intro j hj
    rw [forecastPoints_getD _ _ _ _ _ hj]
    show confAt (decide (14 ≤ (dailyDates txs).length)) fd (j + 1) = _
    rw [hb, confAt]
    norm_num
  refine ⟨?_, hconf, ?_⟩
  · rw [forecastEndpoint, if_neg (by omega), if_neg (by omega)]
  · intro j1 j2 h12 hj2
    have hj1 : j1 < (forecastPoints txs fd std).length := lt_of_le_of_lt h12 hj2
    rw [hconf j1 hj1, hconf j2 hj2]
    have hfd : 0 < fd := by
      rw [forecastPoints_length] at hj2
      omega
    have hfdq : (0 : ℚ) < (fd : ℚ) := by exact_mod_cast hfd
    have hdiv : ((j1 : ℚ) + 1) / (fd : ℚ) ≤ ((j2 : ℚ) + 1) / (fd : ℚ) := by
      apply div_le_div_of_nonneg_right ?_ hfdq.le
      have : (j1 : ℚ) ≤ (j2 : ℚ) := by exact_mod_cast h12
      linarith
    exact min_le_min le_rfl (max_le_max le_rfl (by linarith))

/-- Witness for `forecast_confidence` at `txsW` (3 days of history < 14),
horizon 2: the confidence formula at point 0 and the non-increase from
point 0 to point 1. -/
theorem forecast_confidence_witness :
    ((forecastPoints txsW 2 (some 1)).getD 0 dummyFPoint).confidence
      = min 0.95 (max 0.6 (1 - (((0 : ℚ) + 1) / ((2 : ℤ) : ℚ)) * 0.3))
    ∧ ((forecastPoints txsW 2 (some 1)).getD 1 dummyFPoint).confidence
        ≤ ((forecastPoints txsW 2 (some 1)).getD 0 dummyFPoint).confidence := by
  have h := forecast_confidence txsW 2 (some 1) (by decide) (by decide) (by decide)
  have hl : (1 : ℕ) < (forecastPoints txsW 2 (some 1)).length := by
    rw [forecastPoints_length]; decide
  exact ⟨h.2.1 0 (by omega), h.2.2 0 1 (by omega) hl⟩

end FinML
